import Mathlib

/-!
Verification of the ExtraChat MCP tool-invocation subsystem.

This file is a shallow embedding, in Lean 4, of the Go sources of the
ExtraChat repository: the response cache (internal/cache), the MCP
transport clients (internal/mcp: stdio, websocket, http), the client
registry, and the Anthropic tool-use orchestration loop
(internal/chatbot). Effectful Go code is embedded as explicit state
passing; the network and the external MCP servers are modelled as
oracles (the wire outcome of each exchange is a parameter); Go errors,
which in this codebase are all built with fmt.Errorf, are embedded as
an inductive type with one constructor per construction site, wrapped
errors keeping their context string.
-/

/-- Opaque JSON payloads (Go interface values and map arguments) are
modelled by their serialized text. -/
abbrev JsonValue := String

/-- Embeds session.Message (internal/session/session.go). The Go
Timestamp is time.Time; it is embedded as a Nat tick, which no code we
study inspects. -/
structure Message where
  Role : String
  Content : String
  Timestamp : Nat
deriving DecidableEq

/-- Embeds cache.CachedResponse (internal/cache). -/
structure CachedResponse where
  Response : String
  Timestamp : Nat
deriving DecidableEq

/- SHA-256, embedded from the semantics of crypto/sha256 used by
cache.GenerateCacheKey: the streaming writes of the Go code hash the
concatenation of the written byte slices, so the embedding hashes one
concatenated byte list. -/

/-- 2 to the 32nd, the word modulus of SHA-256 arithmetic. -/
def w32 : Nat := 4294967296

/-- Addition modulo 2^32. -/
def add32 (a b : Nat) : Nat := (a + b) % w32

/-- Right rotation of a 32-bit word. -/
def rotr32 (n x : Nat) : Nat := ((x >>> n) ||| (x <<< (32 - n))) % w32

/-- Bitwise complement of a 32-bit word. -/
def not32 (x : Nat) : Nat := 4294967295 ^^^ x

/-- SHA-256 choice function. -/
def shaCh (e f g : Nat) : Nat := (e &&& f) ^^^ (not32 e &&& g)

/-- SHA-256 majority function. -/
def shaMaj (a b c : Nat) : Nat := (a &&& b) ^^^ (a &&& c) ^^^ (b &&& c)

/-- SHA-256 big sigma 0. -/
def bsig0 (x : Nat) : Nat := rotr32 2 x ^^^ rotr32 13 x ^^^ rotr32 22 x

/-- SHA-256 big sigma 1. -/
def bsig1 (x : Nat) : Nat := rotr32 6 x ^^^ rotr32 11 x ^^^ rotr32 25 x

/-- SHA-256 small sigma 0. -/
def ssig0 (x : Nat) : Nat := rotr32 7 x ^^^ rotr32 18 x ^^^ (x >>> 3)

/-- SHA-256 small sigma 1. -/
def ssig1 (x : Nat) : Nat := rotr32 17 x ^^^ rotr32 19 x ^^^ (x >>> 10)

/-- The 64 SHA-256 round constants. -/
def shaK : List Nat :=
  [1116352408, 1899447441, 3049323471, 3921009573, 961987163, 1508970993,
   2453635748, 2870763221, 3624381080, 310598401, 607225278, 1426881987,
   1925078388, 2162078206, 2614888103, 3248222580, 3835390401, 4022224774,
   264347078, 604807628, 770255983, 1249150122, 1555081692, 1996064986,
   2554220882, 2821834349, 2952996808, 3210313671, 3336571891, 3584528711,
   113926993, 338241895, 666307205, 773529912, 1294757372, 1396182291,
   1695183700, 1986661051, 2177026350, 2456956037, 2730485921, 2820302411,
   3259730800, 3345764771, 3516065817, 3600352804, 4094571909, 275423344,
   430227734, 506948616, 659060556, 883997877, 958139571, 1322822218,
   1537002063, 1747873779, 1955562222, 2024104815, 2227730452, 2361852424,
   2428436474, 2756734187, 3204031479, 3329325298]

/-- The SHA-256 initial hash state. -/
def shaH0 : List Nat :=
  [1779033703, 3144134277, 1013904242, 2773480762,
   1359893119, 2600822924, 528734635, 1541459225]

/-- Big-endian byte rendering of a value on a fixed number of bytes. -/
def beBytes (n v : Nat) : List Nat :=
  (List.range n).map (fun i => (v >>> (8 * (n - 1 - i))) % 256)

/-- SHA-256 message padding: a 0x80 byte, zeros to 56 mod 64, then the
bit length on 8 big-endian bytes. -/
def shaPad (msg : List Nat) : List Nat :=
  msg ++ [128] ++ List.replicate ((119 - msg.length % 64) % 64) 0 ++ beBytes 8 (8 * msg.length)

/-- Splits a byte list into chunks of 64. -/
def toChunks (l : List Nat) : List (List Nat) :=
  if h : l = [] then []
  else l.take 64 :: toChunks (l.drop 64)
termination_by l.length
decreasing_by
  simp only [List.length_drop]
  exact Nat.sub_lt (List.length_pos.mpr h) (by decide)

/-- The 16 initial 32-bit words of a 64-byte chunk, big-endian. -/
def chunkWords (chunk : List Nat) : List Nat :=
  (List.range 16).map (fun i =>
    chunk.getD (4 * i) 0 * 16777216 + chunk.getD (4 * i + 1) 0 * 65536 +
    chunk.getD (4 * i + 2) 0 * 256 + chunk.getD (4 * i + 3) 0)

/-- One extension word of the SHA-256 message schedule. -/
def scheduleNext (w : List Nat) : Nat :=
  let i := w.length
  add32 (add32 (ssig1 (w.getD (i - 2) 0)) (w.getD (i - 7) 0))
        (add32 (ssig0 (w.getD (i - 15) 0)) (w.getD (i - 16) 0))

/-- Extends the message schedule by the given number of words. -/
def extendSchedule : Nat → List Nat → List Nat
  | 0, w => w
  | k + 1, w => extendSchedule k (w ++ [scheduleNext w])

/-- One SHA-256 compression round on the 8-word working state. -/
def shaRound (st : List Nat) (k wv : Nat) : List Nat :=
  let a := st.getD 0 0
  let b := st.getD 1 0
  let c := st.getD 2 0
  let d := st.getD 3 0
  let e := st.getD 4 0
  let f := st.getD 5 0
  let g := st.getD 6 0
  let h := st.getD 7 0
  let t1 := add32 (add32 (add32 h (bsig1 e)) (add32 (shaCh e f g) k)) wv
  let t2 := add32 (bsig0 a) (shaMaj a b c)
  [add32 t1 t2, a, b, c, add32 d t1, e, f, g]

/-- SHA-256 compression of one 64-byte chunk into the hash state. -/
def compressChunk (hs : List Nat) (chunk : List Nat) : List Nat :=
  let ws := extendSchedule 48 (chunkWords chunk)
  let st := (shaK.zip ws).foldl (fun st kw => shaRound st kw.1 kw.2) hs
  (List.range 8).map (fun i => add32 (hs.getD i 0) (st.getD i 0))

/-- SHA-256 of a byte list, as the list of 8 hash words. -/
def sha256Words (msg : List Nat) : List Nat :=
  (toChunks (shaPad msg)).foldl compressChunk shaH0

/-- A lowercase hexadecimal digit. -/
def hexDigit (n : Nat) : Char :=
  (String.toList "0123456789abcdef").getD n (Char.ofNat 48)

/-- The 8 hex characters of a 32-bit word. -/
def wordHex (v : Nat) : List Char :=
  (List.range 8).map (fun i => hexDigit ((v >>> (4 * (7 - i))) % 16))

/-- Lowercase hex string of a word list, as produced by Go fmt %x of a
SHA-256 digest. -/
def hexString (ws : List Nat) : String :=
  String.mk (ws.foldr (fun v acc => wordHex v ++ acc) [])

/-- UTF-8 encoding of one character, as Go byte-slices a string. -/
def charBytes (c : Char) : List Nat :=
  let n := c.toNat
  if n < 128 then [n]
  else if n < 2048 then [192 ||| (n >>> 6), 128 ||| (n &&& 63)]
  else if n < 65536 then
    [224 ||| (n >>> 12), 128 ||| ((n >>> 6) &&& 63), 128 ||| (n &&& 63)]
  else
    [240 ||| (n >>> 18), 128 ||| ((n >>> 12) &&& 63), 128 ||| ((n >>> 6) &&& 63), 128 ||| (n &&& 63)]

/-- The bytes of a Go string (UTF-8). -/
def strBytes (s : String) : List Nat :=
  s.data.foldr (fun c acc => charBytes c ++ acc) []

/-- The byte stream cache.GenerateCacheKey feeds to sha256: for each
message, the Role bytes then the Content bytes, with no separator. -/
def cacheKeyStream (messages : List Message) : List Nat :=
  messages.foldl (fun acc msg => acc ++ strBytes msg.Role ++ strBytes msg.Content) []

/-- Embeds cache.GenerateCacheKey (internal/cache/cache.go 66-73):
sha256 over the concatenated Role and Content bytes of every message,
rendered as lowercase hex. -/
def GenerateCacheKey (messages : List Message) : String :=
  hexString (sha256Words (cacheKeyStream messages))

/-- Embeds ChatBot.checkCache (part_003 188-195): a lookup in the
response cache, keyed by the cache key string. The sync.Map is
embedded as an association list whose first binding for a key wins. -/
def checkCache (cache : List (String × CachedResponse)) (cacheKey : String) : Option String :=
  (cache.find? (fun kv => kv.1 == cacheKey)).map (fun kv => kv.2.Response)

/-- Embeds ChatBot.storeCache (part_003 198-204). -/
def storeCache (cache : List (String × CachedResponse)) (cacheKey response : String)
    (now : Nat) : List (String × CachedResponse) :=
  (cacheKey, ⟨response, now⟩) :: cache

/-- The cache consultation sendMessage performs (part_003 593-603): the
key of the full message list decides whether a cached assistant
response is returned. -/
def sendMessageCacheLookup (cache : List (String × CachedResponse))
    (messages : List Message) : Option String :=
  checkCache cache (GenerateCacheKey messages)

/- Transport layer: JSON-RPC types (internal/mcp/protocol.go) and the
three MCP clients (stdio in part_000, websocket.go, http in part_001). -/

/-- Embeds mcp.RPCError (protocol.go 22-26). -/
structure RPCError where
  Code : Int
  Message : String
  Data : Option JsonValue
deriving DecidableEq

/-- Embeds mcp.JSONRPCRequest (protocol.go 6-11). Params are carried
as opaque serialized JSON. -/
structure JSONRPCRequest where
  jsonrpc : String
  id : Int
  method : String
  params : Option JsonValue
deriving DecidableEq

/-- Embeds mcp.JSONRPCResponse (protocol.go 14-19). The Result field
is carried as opaque serialized JSON. -/
structure JSONRPCResponse where
  jsonrpc : String
  id : Int
  result : Option JsonValue
  error : Option RPCError
deriving DecidableEq

/-- Embeds mcp.Tool (client.go 28-33). -/
structure Tool where
  Name : String
  Description : String
  InputSchema : JsonValue
  ServerName : String
deriving DecidableEq

/-- The JSON-RPC method strings of protocol.go 29-33. The Go constant
names start with Method and are kept. -/
def MethodInit : String := "initialize"

/-- Go constant MethodListTools. -/
def MethodListTools : String := "tools/list"

/-- Go constant MethodCallTool. -/
def MethodCallTool : String := "tools/call"

/-- Go errors of the transport layer. Every error in the Go sources is
built by fmt.Errorf; each construction site becomes one constructor,
and wrapping with a context string (the Go pattern
fmt.Errorf with a context and %w) is the wrap constructor. -/
inductive MCPErr where
  | clientClosed
  | writeFailed (msg : String)
  | readFailed (msg : String)
  | eofFromServer
  | unmarshalFailed (msg : String)
  | httpRequestFailed (msg : String)
  | httpStatusError (status : Nat) (body : String)
  | rpcError (code : Int) (message : String)
  | wrap (context : String) (e : MCPErr)
deriving DecidableEq

/-- The remote code and message carried by an error, if an rpcError is
in its wrap chain; transport-level and generic failures carry none.
This is how a caller distinguishes a JSON-RPC-level failure. -/
def rpcPayload : MCPErr → Option (Int × String)
  | .rpcError c m => some (c, m)
  | .wrap _ e => rpcPayload e
  | _ => none

/-- The Go int value of a 32-bit counter word: atomic.AddInt32 wraps
in two's complement, and the int conversion preserves that value. -/
def toSigned32 (n : Nat) : Int :=
  if n < 2147483648 then (n : Int) else (n : Int) - 4294967296

/-- The bit pattern of the int32 counter after one atomic.AddInt32 by
one (part_000 446, websocket.go 149, part_001 112). -/
def nextReqID (c : Nat) : Nat := (c + 1) % 4294967296

/-- The five MCP client operations that issue a request. Go method
names Initialize, ListTools, CallTool are renamed opInit, opListTools,
opCallTool here. -/
inductive MCPOp where
  | opInit
  | opListTools
  | opCallTool (name : String) (args : JsonValue)
deriving DecidableEq

/-- The JSON-RPC method an operation issues. -/
def opMethod : MCPOp → String
  | .opInit => MethodInit
  | .opListTools => MethodListTools
  | .opCallTool _ _ => MethodCallTool

/-- The params an operation sends (opaque payloads; tools/list sends
none, mirroring the nil params of the Go ListTools). -/
def opParams : MCPOp → Option JsonValue
  | .opInit => some "InitializeParams"
  | .opListTools => none
  | .opCallTool name args => some ("CallToolParams " ++ name ++ " " ++ args)

/-- The context string each Go wrapper method adds to a sendRequest
error: initialize failed, list tools failed, call tool failed. -/
def opWrapCtx : MCPOp → String
  | .opInit => "initialize failed"
  | .opListTools => "list tools failed"
  | .opCallTool _ _ => "call tool failed"

/-- Resource release steps a Close can perform; recorded so that
idempotence (no double release) is provable. -/
inductive CloseEffect where
  | closeStdin
  | closeStdout
  | closeStderr
  | killProcess
  | waitProcess
  | sendCloseFrame
  | closeConn
deriving DecidableEq

/-- The mutable state of mcp.StdioClient (part_000 276-287): the
closed flag and the int32 request-id counter, kept as its bit pattern.
The pipes, process and logger carry no further state the studied
properties depend on. -/
structure StdioState where
  closed : Bool
  reqID : Nat
deriving DecidableEq

/-- The mutable state of mcp.WebSocketClient (websocket.go 15-23). -/
structure WSState where
  closed : Bool
  reqID : Nat
deriving DecidableEq

/-- The mutable state of mcp.HTTPClient (part_001 15-21): only the
request-id counter; there is no closed flag. -/
structure HTTPState where
  reqID : Nat
deriving DecidableEq

/-- What the stdio exchange for one request yields, as an oracle: the
write can fail, the scanner can fail or end, the line can fail to
decode, or a decoded JSON-RPC response arrives. -/
inductive StdioWire where
  | writeError (msg : String)
  | scanError (msg : String)
  | eof
  | decodeError (msg : String)
  | response (resp : JSONRPCResponse)

/-- What one websocket exchange yields: WriteJSON or ReadJSON can
fail (ReadJSON also covers malformed frames), or a response arrives. -/
inductive WSWire where
  | writeError (msg : String)
  | readError (msg : String)
  | response (resp : JSONRPCResponse)

/-- What one HTTP POST exchange yields: the request can fail to send,
a non-200 status can come back, the body read or decode can fail, or
a decoded JSON-RPC response arrives. -/
inductive HTTPWire where
  | sendError (msg : String)
  | status (code : Nat) (body : String)
  | readBodyError (msg : String)
  | decodeError (msg : String)
  | response (resp : JSONRPCResponse)

/-- The outcome of one sendRequest: the successor state, the request
that was built and sent (none when the closed check rejected the call
before building one), and the Go return value, an error or the raw
result payload. The unmarshal of the result into the typed out
parameter is kept opaque. -/
structure SendOutcome (σ : Type) where
  state : σ
  sent : Option JSONRPCRequest
  result : Except MCPErr JsonValue

/-- Shared tail of all three sendRequest bodies: given the attached id
and the decoded response, surface the JSON-RPC error if the error
field is populated, otherwise the raw result. -/
def responseOutcome (resp : JSONRPCResponse) : Except MCPErr JsonValue :=
  match resp.error with
  | some e => .error (.rpcError e.Code e.Message)
  | none => .ok (resp.result.getD "")

/-- Embeds StdioClient.sendRequest (part_000 437-500): under the
mutex, reject when closed, bump the id counter, write the request,
scan one line, decode it, then check the error field. -/
def StdioClient.sendRequest (c : StdioState) (method : String) (params : Option JsonValue)
    (wire : StdioWire) : SendOutcome StdioState :=
  if c.closed then ⟨c, none, .error .clientClosed⟩
  else
    let rid := nextReqID c.reqID
    let c' : StdioState := ⟨c.closed, rid⟩
    let req : JSONRPCRequest := ⟨"2.0", toSigned32 rid, method, params⟩
    match wire with
    | .writeError m => ⟨c', some req, .error (.writeFailed m)⟩
    | .scanError m => ⟨c', some req, .error (.readFailed m)⟩
    | .eof => ⟨c', some req, .error .eofFromServer⟩
    | .decodeError m => ⟨c', some req, .error (.unmarshalFailed m)⟩
    | .response resp => ⟨c', some req, responseOutcome resp⟩

/-- Embeds WebSocketClient.sendRequest (websocket.go 140-187). -/
def WebSocketClient.sendRequest (c : WSState) (method : String) (params : Option JsonValue)
    (wire : WSWire) : SendOutcome WSState :=
  if c.closed then ⟨c, none, .error .clientClosed⟩
  else
    let rid := nextReqID c.reqID
    let c' : WSState := ⟨c.closed, rid⟩
    let req : JSONRPCRequest := ⟨"2.0", toSigned32 rid, method, params⟩
    match wire with
    | .writeError m => ⟨c', some req, .error (.writeFailed m)⟩
    | .readError m => ⟨c', some req, .error (.readFailed m)⟩
    | .response resp => ⟨c', some req, responseOutcome resp⟩

/-- Embeds HTTPClient.sendRequest (part_001 110-178): no closed check
exists; bump the id counter, POST, check the HTTP status, read and
decode the body, then check the error field. -/
def HTTPClient.sendRequest (c : HTTPState) (method : String) (params : Option JsonValue)
    (wire : HTTPWire) : SendOutcome HTTPState :=
  let rid := nextReqID c.reqID
  let c' : HTTPState := ⟨rid⟩
  let req : JSONRPCRequest := ⟨"2.0", toSigned32 rid, method, params⟩
  match wire with
  | .sendError m => ⟨c', some req, .error (.httpRequestFailed m)⟩
  | .status code body => ⟨c', some req, .error (.httpStatusError code body)⟩
  | .readBodyError m => ⟨c', some req, .error (.readFailed m)⟩
  | .decodeError m => ⟨c', some req, .error (.unmarshalFailed m)⟩
  | .response resp => ⟨c', some req, responseOutcome resp⟩

/-- One public operation of the stdio client: sendRequest plus the
context wrap its Go wrapper method adds to a failure. -/
def StdioClient.runOp (c : StdioState) (op : MCPOp) (wire : StdioWire) : SendOutcome StdioState :=
  let o := StdioClient.sendRequest c (opMethod op) (opParams op) wire
  ⟨o.state, o.sent, o.result.mapError (MCPErr.wrap (opWrapCtx op))⟩

/-- One public operation of the websocket client. -/
def WebSocketClient.runOp (c : WSState) (op : MCPOp) (wire : WSWire) : SendOutcome WSState :=
  let o := WebSocketClient.sendRequest c (opMethod op) (opParams op) wire
  ⟨o.state, o.sent, o.result.mapError (MCPErr.wrap (opWrapCtx op))⟩

/-- One public operation of the HTTP client. -/
def HTTPClient.runOp (c : HTTPState) (op : MCPOp) (wire : HTTPWire) : SendOutcome HTTPState :=
  let o := HTTPClient.sendRequest c (opMethod op) (opParams op) wire
  ⟨o.state, o.sent, o.result.mapError (MCPErr.wrap (opWrapCtx op))⟩

/-- Embeds StdioClient.Close (part_000 404-434): under the mutex, a
second call returns nil at once; the first call sets the flag, closes
the three pipes, kills the process and reaps it, and returns nil even
if the kill failed (that is only logged). -/
def StdioClient.Close (c : StdioState) : StdioState × List CloseEffect × Option MCPErr :=
  if c.closed then (c, [], none)
  else (⟨true, c.reqID⟩,
        [.closeStdin, .closeStdout, .closeStderr, .killProcess, .waitProcess], none)

/-- Embeds WebSocketClient.Close (websocket.go 120-137). -/
def WebSocketClient.Close (c : WSState) : WSState × List CloseEffect × Option MCPErr :=
  if c.closed then (c, [], none)
  else (⟨true, c.reqID⟩, [.sendCloseFrame, .closeConn], none)

/-- Embeds HTTPClient.Close (part_001 104-107): it only logs; no
state changes, no resource is released, no error is returned. -/
def HTTPClient.Close (c : HTTPState) : HTTPState × List CloseEffect × Option MCPErr :=
  (c, [], none)

/-- Runs a sequence of operations against the stdio client, collecting
every request that was built and sent. -/
def StdioClient.runOps : StdioState → List (MCPOp × StdioWire) → StdioState × List JSONRPCRequest
  | c, [] => (c, [])
  | c, (op, w) :: rest =>
    let o := StdioClient.runOp c op w
    let (c', reqs) := StdioClient.runOps o.state rest
    (c', (match o.sent with | some req => req :: reqs | none => reqs))

/-- Runs a sequence of operations against the websocket client. -/
def WebSocketClient.runOps : WSState → List (MCPOp × WSWire) → WSState × List JSONRPCRequest
  | c, [] => (c, [])
  | c, (op, w) :: rest =>
    let o := WebSocketClient.runOp c op w
    let (c', reqs) := WebSocketClient.runOps o.state rest
    (c', (match o.sent with | some req => req :: reqs | none => reqs))

/-- Runs a sequence of operations against the HTTP client. -/
def HTTPClient.runOps : HTTPState → List (MCPOp × HTTPWire) → HTTPState × List JSONRPCRequest
  | c, [] => (c, [])
  | c, (op, w) :: rest =>
    let o := HTTPClient.runOp c op w
    let (c', reqs) := HTTPClient.runOps o.state rest
    (c', (match o.sent with | some req => req :: reqs | none => reqs))

/-- A freshly constructed stdio client (part_000 323-333): not closed,
counter at zero. -/
def stdioFresh : StdioState := ⟨false, 0⟩

/-- A freshly constructed websocket client (websocket.go 37-44). -/
def wsFresh : WSState := ⟨false, 0⟩

/-- A freshly constructed HTTP client (part_001 29-37). -/
def httpFresh : HTTPState := ⟨0⟩

/- Orchestrator: the Anthropic tool-use loop of internal/chatbot
(part_003). The model backend is an oracle: a scripted list of
responses, consumed one per API call; running out of script embeds a
failed HTTP call to the model. -/

/-- Embeds backend.AnthropicContent (internal/backend): one content
block of a model message. The Go Input and Content interface fields
are carried as serialized text. -/
structure AnthropicContent where
  type : String
  text : String
  id : String
  name : String
  input : JsonValue
  toolUseId : String
  content : String
  isError : Bool
deriving DecidableEq

/-- Embeds the fields of backend.AnthropicResponse the orchestrator
reads: the content blocks and the stop reason. -/
structure AnthropicResponse where
  content : List AnthropicContent
  stopReason : String
deriving DecidableEq

/-- A text content block. -/
def textContent (t : String) : AnthropicContent :=
  ⟨"text", t, "", "", "", "", "", false⟩

/-- A tool_use content block. -/
def toolUseContent (id name input : String) : AnthropicContent :=
  ⟨"tool_use", "", id, name, input, "", "", false⟩

/-- A synthesized tool_result block, as handleAnthropicToolUse builds
them (part_003 848-870). -/
def mkToolResult (toolUseId content : String) (isError : Bool) : AnthropicContent :=
  ⟨"tool_result", "", "", "", "", toolUseId, content, isError⟩

/-- An MCP client as the orchestrator sees one through the mcp.MCPClient
interface: its registered name and its CallTool behaviour, with Go
errors as their message strings. -/
structure MCPClientModel where
  name : String
  callToolFn : String → JsonValue → Except String JsonValue

/-- The ChatBot state the tool-use path reads: whether the Anthropic
key environment variable is set, the flattened tool catalog
cb.mcpTools, and the registry cb.mcpRegistry as an association list
from server name to client (ClientRegistry.Get is a map lookup). -/
structure OrchEnv where
  apiKeyPresent : Bool
  mcpTools : List Tool
  registry : List (String × MCPClientModel)

/-- Embeds ClientRegistry.Get (client.go 56-61). -/
def registryGet (env : OrchEnv) (name : String) : Option MCPClientModel :=
  (env.registry.find? (fun kv => kv.1 == name)).map (fun kv => kv.2)

/-- The catalog scan of invokeMCPTool (part_003 1059-1068): the first
tool whose Name matches wins. -/
def toolLookup (env : OrchEnv) (toolName : String) : Option Tool :=
  env.mcpTools.find? (fun t => t.Name == toolName)

/-- The lookup of a tool fails: either no catalog entry bears the
name, or the first matching entry names a server absent from the
registry. -/
def lookupFails (env : OrchEnv) (toolName : String) : Prop :=
  match toolLookup env toolName with
  | none => True
  | some tool => registryGet env tool.ServerName = none

/-- The error message invokeMCPTool produces for a failed lookup. -/
def lookupErrMsg (env : OrchEnv) (toolName : String) : String :=
  match toolLookup env toolName with
  | none => "tool " ++ toolName ++ " not found"
  | some tool => "server " ++ tool.ServerName ++ " not found for tool " ++ toolName

/-- Embeds ChatBot.invokeMCPTool (part_003 1056-1082): find the owning
server of the first catalog entry with the requested name, look it up
in the registry, call the tool, wrapping a call failure. -/
def invokeMCPTool (env : OrchEnv) (toolName : String) (args : JsonValue) :
    Except String JsonValue :=
  match toolLookup env toolName with
  | none => .error ("tool " ++ toolName ++ " not found")
  | some tool =>
    match registryGet env tool.ServerName with
    | none => .error ("server " ++ tool.ServerName ++ " not found for tool " ++ toolName)
    | some client =>
      match client.callToolFn toolName args with
      | .error e => .error ("failed to call tool " ++ toolName ++ ": " ++ e)
      | .ok r => .ok r

/-- The tool_result block synthesized for one tool_use block
(part_003 841-872): on failure the error text with isError set, on
success the marshalled result payload. -/
def synthesizedResult (env : OrchEnv) (b : AnthropicContent) : AnthropicContent :=
  match invokeMCPTool env b.name b.input with
  | .error e => mkToolResult b.id ("Error: " ++ e) true
  | .ok r => mkToolResult b.id r false

/-- The content-block loop of handleAnthropicToolUse (part_003
841-873): every tool_use block is invoked in emission order and yields
one tool_result block; other block types are skipped. Returns the
synthesized results and the names invoked, in order. -/
def processToolUses (env : OrchEnv) : List AnthropicContent → List AnthropicContent × List String
  | [] => ([], [])
  | c :: rest =>
    let (results, invoked) := processToolUses env rest
    if c.type == "tool_use" then (synthesizedResult env c :: results, c.name :: invoked)
    else (results, invoked)

/-- The tool_use blocks of a response. -/
def toolUseBlocks (r : AnthropicResponse) : List AnthropicContent :=
  r.content.filter (fun c => c.type == "tool_use")

/-- The names of the tool_use blocks of a round list, in order. -/
def toolNamesOf (rs : List AnthropicResponse) : List String :=
  rs.foldr (fun r acc => (toolUseBlocks r).map (fun b => b.name) ++ acc) []

/-- The first text block of a content list, as both text-extraction
loops of part_003 (324-328 and 969-973) read it. -/
def firstText (content : List AnthropicContent) : Option String :=
  (content.find? (fun c => c.type == "text")).map (fun c => c.text)

/-- The errors the orchestration turn can end with. Each constructor
is one fmt.Errorf site of part_003; recursionLimitExceeded has no
construction site in the source and is present so that its absence is
expressible. -/
inductive ChatError where
  | apiKeyMissing
  | modelRequestFailed
  | emptyResponse
  | noToolUseBlocks
  | emptyAfterToolUse
  | recursionLimitExceeded
deriving DecidableEq

/-- Embeds ChatBot.handleAnthropicToolUse (part_003 830-976) with the
model as a scripted oracle. Returns the turn result, the number of
model calls attempted by this handler, and the tool names invoked in
order. Order of the Go body: invoke every tool_use block; fail if
there was none; fail if the key is unset; make the follow-up model
call; recurse while the follow-up stop reason is tool_use; otherwise
extract the first text block. -/
def handleAnthropicToolUse (env : OrchEnv) :
    AnthropicResponse → List AnthropicResponse → Except ChatError String × Nat × List String
  | resp, [] =>
    let pr := processToolUses env resp.content
    if pr.1.isEmpty then (.error .noToolUseBlocks, 0, pr.2)
    else if !env.apiKeyPresent then (.error .apiKeyMissing, 0, pr.2)
    else (.error .modelRequestFailed, 1, pr.2)
  | resp, followUp :: rest2 =>
    let pr := processToolUses env resp.content
    if pr.1.isEmpty then (.error .noToolUseBlocks, 0, pr.2)
    else if !env.apiKeyPresent then (.error .apiKeyMissing, 0, pr.2)
    else if followUp.stopReason == "tool_use" then
      let h := handleAnthropicToolUse env followUp rest2
      (h.1, h.2.1 + 1, pr.2 ++ h.2.2)
    else
      match firstText followUp.content with
      | some t => (.ok t, 1, pr.2)
      | none => (.error .emptyAfterToolUse, 1, pr.2)

/-- Embeds ChatBot.callAnthropic (part_003 241-331) with the model as
a scripted oracle: check the key, make one model call, hand a
tool_use stop reason to handleAnthropicToolUse, otherwise return the
first text block. Returns the turn result, the total model calls
attempted, and the tool names invoked in order. -/
def callAnthropic (env : OrchEnv) (responses : List AnthropicResponse) :
    Except ChatError String × Nat × List String :=
  if !env.apiKeyPresent then (.error .apiKeyMissing, 0, [])
  else
    match responses with
    | [] => (.error .modelRequestFailed, 1, [])
    | r :: rest =>
      if r.stopReason == "tool_use" then
        let h := handleAnthropicToolUse env r rest
        (h.1, h.2.1 + 1, h.2.2)
      else
        match firstText r.content with
        | some t => (.ok t, 1, [])
        | none => (.error .emptyResponse, 1, [])

/- Tool catalog refresh (part_003 1038-1053). -/

deriving instance DecidableEq for Except

/-- A registered client as refreshMCPTools sees it: its name and the
outcome of its ListTools call. -/
structure ListClient where
  name : String
  listToolsResult : Except String (List Tool)
deriving DecidableEq

/-- The loop of refreshMCPTools from a given current value of
cb.mcpTools: returns the successive values assigned to the field (one
per successful client) and its final value; a failed ListTools is
logged and skipped. -/
def refreshRun (acc : List Tool) : List ListClient → List (List Tool) × List Tool
  | [] => ([], acc)
  | c :: rest =>
    match c.listToolsResult with
    | .error _ => refreshRun acc rest
    | .ok ts =>
      let r := refreshRun (acc ++ ts) rest
      ((acc ++ ts) :: r.1, r.2)

/-- Embeds ChatBot.refreshMCPTools (part_003 1038-1053): cb.mcpTools
is first assigned the empty slice, then grown by one append per
successful client. Returns every value the field takes during the
refresh in order, the final catalog, and the returned error, which is
always nil. -/
def refreshMCPTools (clients : List ListClient) : List (List Tool) × List Tool × Option String :=
  let r := refreshRun [] clients
  (([] : List Tool) :: r.1, r.2, none)

/-- The tool lists of exactly the clients whose ListTools succeeded,
concatenated in order; the shape the claim predicts for the refreshed
catalog. -/
def concatSucceeded (clients : List ListClient) : List Tool :=
  clients.foldr
    (fun c acc => (match c.listToolsResult with | .ok ts => ts ++ acc | .error _ => acc)) []

/- Concrete demonstration values used by witnesses and
counterexamples. -/

/-- An environment with the key set and nothing registered. -/
def demoEnv : OrchEnv := ⟨true, [], []⟩

/-- A model response requesting one tool invocation. -/
def demoRound : AnthropicResponse :=
  ⟨[toolUseContent "toolu_01" "search" "query"], "tool_use"⟩

/-- A terminal text model response. -/
def demoFinal : AnthropicResponse := ⟨[textContent "done"], "end_turn"⟩

/-- A response whose stop reason claims tool use but whose content
has no tool_use block, only text. -/
def c4Resp : AnthropicResponse := ⟨[textContent "hello"], "tool_use"⟩

/-- A terminal response carrying no text block. -/
def c4NoText : AnthropicResponse := ⟨[], "end_turn"⟩

/-- A catalog entry owned by server s1. -/
def demoTool1 : Tool := ⟨"alpha", "first demo tool", "schema-a", "s1"⟩

/-- A catalog entry owned by server s2. -/
def demoTool2 : Tool := ⟨"beta", "second demo tool", "schema-b", "s2"⟩

/-- Two clients whose ListTools both succeed. -/
def demoClients : List ListClient :=
  [⟨"s1", .ok [demoTool1]⟩, ⟨"s2", .ok [demoTool2]⟩]

/-- A well-formed JSON-RPC response whose error field is populated
with the method-not-found code of Scenario B. -/
def demoErrResp : JSONRPCResponse := ⟨"2.0", 2, none, some ⟨-32601, "method not found", none⟩⟩

/-- A well-formed successful JSON-RPC response. -/
def demoOkResp : JSONRPCResponse := ⟨"2.0", 2, some "tool output", none⟩

/-- Boolean form of a failed tool lookup: no catalog entry bears the
name, or the first matching entry names a server absent from the
registry. -/
def lookupFailsB (env : OrchEnv) (toolName : String) : Bool :=
  match toolLookup env toolName with
  | none => true
  | some tool => (registryGet env tool.ServerName).isNone

/-- An environment whose catalog advertises demoTool1 but whose
registry does not contain its owning server. -/
def envMissingServer : OrchEnv := ⟨true, [demoTool1], []⟩

/-- A model response invoking the catalogued tool alpha. -/
def demoRoundAlpha : AnthropicResponse :=
  ⟨[toolUseContent "toolu_02" "alpha" "payload"], "tool_use"⟩

/-- A second terminal text model response. -/
def demoFinal2 : AnthropicResponse := ⟨[textContent "after tools"], "end_turn"⟩

/-- A response with zero tool_use blocks, a text block, and the
tool_use stop reason. -/
def c1Resp : AnthropicResponse := ⟨[textContent "only text"], "tool_use"⟩

/- Theorems. Helper lemmas come first, then, per claim, the claim
theorem with its witness or counterexample. -/

theorem refreshRun_final (clients : List ListClient) :
    ∀ acc, (refreshRun acc clients).2 = acc ++ concatSucceeded clients := by
  induction clients with
  | nil => intro acc; simp [refreshRun, concatSucceeded]
  | cons c rest ih =>
    intro acc
    cases h : c.listToolsResult with
    | error e => simp [refreshRun, concatSucceeded, h, ih]
    | ok ts => simp [refreshRun, concatSucceeded, h, ih]

theorem processToolUses_spec (env : OrchEnv) (l : List AnthropicContent) :
    processToolUses env l
      = ((l.filter (fun c => c.type == "tool_use")).map (synthesizedResult env),
         (l.filter (fun c => c.type == "tool_use")).map (fun b => b.name)) := by
  induction l with
  | nil => simp [processToolUses]
  | cons c rest ih =>
    by_cases h : c.type == "tool_use" <;> simp [processToolUses, List.filter_cons, h, ih]

/-- C10: the cache key function is not injective on conversations:
moving a character from the content of a message into its role leaves
the hashed byte stream, hence the key, unchanged, and sendMessage then
serves the cached response of the other conversation. -/
theorem GenerateCacheKey_collision :
    (([⟨"a", "bc", 0⟩] : List Message) ≠ [⟨"ab", "c", 0⟩]) ∧
    GenerateCacheKey [⟨"a", "bc", 0⟩] = GenerateCacheKey [⟨"ab", "c", 0⟩] ∧
    sendMessageCacheLookup
        (storeCache [] (GenerateCacheKey [⟨"a", "bc", 0⟩]) "answer for the first conversation" 0)
        [⟨"ab", "c", 0⟩] = some "answer for the first conversation" := by
  have hstream : cacheKeyStream [⟨"a", "bc", 0⟩] = cacheKeyStream [⟨"ab", "c", 0⟩] := by decide
  have hkey : GenerateCacheKey [⟨"a", "bc", 0⟩] = GenerateCacheKey [⟨"ab", "c", 0⟩] := by
    unfold GenerateCacheKey
    rw [hstream]
  refine ⟨by decide, hkey, ?_⟩
  unfold sendMessageCacheLookup checkCache storeCache
  rw [← hkey]
  simp

/-- C9 counterexample: with two succeeding clients, the catalog field
takes the intermediate values empty and one-tool during the refresh,
values that are neither the final catalog nor any previous snapshot,
so the snapshot is rebuilt in place rather than replaced atomically. -/
theorem refreshMCPTools_intermediate_states :
    (refreshMCPTools demoClients).1 = [[], [demoTool1], [demoTool1, demoTool2]] ∧
    (refreshMCPTools demoClients).2.1 = [demoTool1, demoTool2] ∧
    ([demoTool1] ≠ ([] : List Tool)) ∧ ([demoTool1] ≠ [demoTool1, demoTool2]) := by
  refine ⟨by decide, by decide, by decide, by decide⟩

/-- C9 amended: the refresh consults every registered client; its
final catalog is the concatenation of the tool lists of exactly the
clients whose ListTools succeeded, one failure skips only that client,
and the refresh always reports no error; but the new catalog is built
by first publishing the empty slice and then appending per client, not
by one atomic replacement. -/
theorem refreshMCPTools_amended (clients : List ListClient) :
    (refreshMCPTools clients).2.1 = concatSucceeded clients ∧
    (refreshMCPTools clients).2.2 = none ∧
    (refreshMCPTools clients).1.head? = some [] := by
  refine ⟨?_, rfl, rfl⟩
  have h := refreshRun_final clients []
  simpa [refreshMCPTools] using h

/-- C8: Close is idempotent for all three transport clients: a second
Close returns no error, performs no release effect again, and leaves
the state exactly as it was after the first Close. -/
theorem Close_idempotent (s : StdioState) (w : WSState) (h : HTTPState) :
    StdioClient.Close (StdioClient.Close s).1 = ((StdioClient.Close s).1, [], none) ∧
    WebSocketClient.Close (WebSocketClient.Close w).1 = ((WebSocketClient.Close w).1, [], none) ∧
    HTTPClient.Close (HTTPClient.Close h).1 = ((HTTPClient.Close h).1, [], none) := by
  refine ⟨?_, ?_, rfl⟩
  · by_cases hc : s.closed <;> simp [StdioClient.Close, hc]
  · by_cases hc : w.closed <;> simp [WebSocketClient.Close, hc]

/-- C6 counterexample: the HTTP client keeps no closed flag, so after
Close has returned, a CallTool on the very same client still executes
and succeeds; the claim that every operation after Close fails does
not hold for the HTTP transport. -/
theorem HTTPClient_usable_after_Close :
    (HTTPClient.Close httpFresh).2.2 = none ∧
    (HTTPClient.runOp (HTTPClient.Close httpFresh).1 (MCPOp.opCallTool "echo" "argtext")
        (HTTPWire.response demoOkResp)).result = .ok "tool output" := by
  refine ⟨rfl, by decide⟩

/-- C6 amended: the stdio and websocket clients reject every operation
after Close with a client-is-closed error and send nothing; the HTTP
client has no closed state — its Close is a pure no-op and a later
operation still builds and sends a request. -/
theorem closed_clients_reject_operations
    (s : StdioState) (w : WSState) (h : HTTPState)
    (hs : s.closed = true) (hw : w.closed = true)
    (op : MCPOp) (w1 : StdioWire) (w2 : WSWire) (w3 : HTTPWire) :
    (StdioClient.runOp s op w1).result = .error (.wrap (opWrapCtx op) .clientClosed) ∧
    (StdioClient.runOp s op w1).sent = none ∧
    (WebSocketClient.runOp w op w2).result = .error (.wrap (opWrapCtx op) .clientClosed) ∧
    (WebSocketClient.runOp w op w2).sent = none ∧
    HTTPClient.Close h = (h, [], none) ∧
    (HTTPClient.runOp h op w3).sent ≠ none := by
  refine ⟨?_, ?_, ?_, ?_, rfl, ?_⟩
  · simp [StdioClient.runOp, StdioClient.sendRequest, hs, Except.mapError]
  · simp [StdioClient.runOp, StdioClient.sendRequest, hs]
  · simp [WebSocketClient.runOp, WebSocketClient.sendRequest, hw, Except.mapError]
  · simp [WebSocketClient.runOp, WebSocketClient.sendRequest, hw]
  · cases w3 <;> simp [HTTPClient.runOp, HTTPClient.sendRequest]

/-- Witness for the amended C6 theorem at a concrete closed client. -/
theorem closed_clients_reject_operations_witness :
    (StdioClient.runOp ⟨true, 0⟩ MCPOp.opListTools StdioWire.eof).result
      = .error (.wrap "list tools failed" .clientClosed) :=
  (closed_clients_reject_operations ⟨true, 0⟩ ⟨true, 0⟩ ⟨0⟩ rfl rfl
    MCPOp.opListTools StdioWire.eof (WSWire.readError "gone") (HTTPWire.sendError "gone")).1

/-- C5: on every transport, a well-formed JSON-RPC response whose
error field is populated makes CallTool fail with the wrapped
rpcError carrying the remote code and message; rpcPayload recovers
them through the wrap, and yields nothing on every transport-level or
generic failure, so the two kinds are distinguishable. -/
theorem callTool_surfaces_rpc_error
    (s : StdioState) (w : WSState) (h : HTTPState)
    (hs : s.closed = false) (hw : w.closed = false)
    (name args : String) (code : Int) (msg : String) (data : Option JsonValue)
    (rid : Int) (rres : Option JsonValue) :
    (StdioClient.runOp s (.opCallTool name args)
        (.response ⟨"2.0", rid, rres, some ⟨code, msg, data⟩⟩)).result
      = .error (.wrap "call tool failed" (.rpcError code msg)) ∧
    (WebSocketClient.runOp w (.opCallTool name args)
        (.response ⟨"2.0", rid, rres, some ⟨code, msg, data⟩⟩)).result
      = .error (.wrap "call tool failed" (.rpcError code msg)) ∧
    (HTTPClient.runOp h (.opCallTool name args)
        (.response ⟨"2.0", rid, rres, some ⟨code, msg, data⟩⟩)).result
      = .error (.wrap "call tool failed" (.rpcError code msg)) ∧
    rpcPayload (.wrap "call tool failed" (.rpcError code msg)) = some (code, msg) ∧
    (∀ ctx m st b, rpcPayload (.wrap ctx .eofFromServer) = none ∧
       rpcPayload (.wrap ctx .clientClosed) = none ∧
       rpcPayload (.wrap ctx (.writeFailed m)) = none ∧
       rpcPayload (.wrap ctx (.readFailed m)) = none ∧
       rpcPayload (.wrap ctx (.httpRequestFailed m)) = none ∧
       rpcPayload (.wrap ctx (.unmarshalFailed m)) = none ∧
       rpcPayload (.wrap ctx (.httpStatusError st b)) = none) := by
  refine ⟨?_, ?_, ?_, rfl, ?_⟩
  · simp [StdioClient.runOp, StdioClient.sendRequest, hs, responseOutcome,
      Except.mapError, opWrapCtx]
  · simp [WebSocketClient.runOp, WebSocketClient.sendRequest, hw, responseOutcome,
      Except.mapError, opWrapCtx]
  · simp [HTTPClient.runOp, HTTPClient.sendRequest, responseOutcome,
      Except.mapError, opWrapCtx]
  · intro ctx m st b
    refine ⟨rfl, rfl, rfl, rfl, rfl, rfl, rfl⟩

/-- Witness for C5: the Scenario B response with code -32601 on a
fresh stdio client. -/
theorem callTool_surfaces_rpc_error_witness :
    (StdioClient.runOp stdioFresh (.opCallTool "search" "query") (.response demoErrResp)).result
      = .error (.wrap "call tool failed" (.rpcError (-32601) "method not found")) :=
  (callTool_surfaces_rpc_error stdioFresh wsFresh httpFresh rfl rfl
    "search" "query" (-32601) "method not found" none 2 none).1

theorem stdio_runOp_open (c : StdioState) (hc : c.closed = false)
    (op : MCPOp) (w : StdioWire) :
    (StdioClient.runOp c op w).state = ⟨false, (c.reqID + 1) % 4294967296⟩ ∧
    (StdioClient.runOp c op w).sent
      = some ⟨"2.0", toSigned32 ((c.reqID + 1) % 4294967296), opMethod op, opParams op⟩ := by
  cases w <;> simp [StdioClient.runOp, StdioClient.sendRequest, hc, nextReqID]

theorem ws_runOp_open (c : WSState) (hc : c.closed = false)
    (op : MCPOp) (w : WSWire) :
    (WebSocketClient.runOp c op w).state = ⟨false, (c.reqID + 1) % 4294967296⟩ ∧
    (WebSocketClient.runOp c op w).sent
      = some ⟨"2.0", toSigned32 ((c.reqID + 1) % 4294967296), opMethod op, opParams op⟩ := by
  cases w <;> simp [WebSocketClient.runOp, WebSocketClient.sendRequest, hc, nextReqID]

theorem http_runOp_state (c : HTTPState) (op : MCPOp) (w : HTTPWire) :
    (HTTPClient.runOp c op w).state = ⟨(c.reqID + 1) % 4294967296⟩ ∧
    (HTTPClient.runOp c op w).sent
      = some ⟨"2.0", toSigned32 ((c.reqID + 1) % 4294967296), opMethod op, opParams op⟩ := by
  cases w <;> simp [HTTPClient.runOp, HTTPClient.sendRequest, nextReqID]

theorem stdio_runOps_ids (ops : List (MCPOp × StdioWire)) :
    ∀ c : StdioState, c.closed = false →
      (StdioClient.runOps c ops).2.map (fun r => r.id)
        = (List.range ops.length).map (fun i => toSigned32 ((c.reqID + i + 1) % 4294967296)) := by
  induction ops with
  | nil => intro c _; simp [StdioClient.runOps]
  | cons p rest ih =>
    intro c hc
    obtain ⟨op, w⟩ := p
    have h1 := stdio_runOp_open c hc op w
    simp only [StdioClient.runOps, h1.1, h1.2, List.map_cons]
    rw [ih ⟨false, (c.reqID + 1) % 4294967296⟩ rfl]
    simp only [List.length_cons, List.range_succ_eq_map, List.map_cons, List.map_map]
    congr 1
    apply List.map_congr_left
    intro a _
    simp only [Function.comp_apply]
    congr 1
    omega

theorem ws_runOps_ids (ops : List (MCPOp × WSWire)) :
    ∀ c : WSState, c.closed = false →
      (WebSocketClient.runOps c ops).2.map (fun r => r.id)
        = (List.range ops.length).map (fun i => toSigned32 ((c.reqID + i + 1) % 4294967296)) := by
  induction ops with
  | nil => intro c _; simp [WebSocketClient.runOps]
  | cons p rest ih =>
    intro c hc
    obtain ⟨op, w⟩ := p
    have h1 := ws_runOp_open c hc op w
    simp only [WebSocketClient.runOps, h1.1, h1.2, List.map_cons]
    rw [ih ⟨false, (c.reqID + 1) % 4294967296⟩ rfl]
    simp only [List.length_cons, List.range_succ_eq_map, List.map_cons, List.map_map]
    congr 1
    apply List.map_congr_left
    intro a _
    simp only [Function.comp_apply]
    congr 1
    omega

theorem http_runOps_ids (ops : List (MCPOp × HTTPWire)) :
    ∀ c : HTTPState,
      (HTTPClient.runOps c ops).2.map (fun r => r.id)
        = (List.range ops.length).map (fun i => toSigned32 ((c.reqID + i + 1) % 4294967296)) := by
  induction ops with
  | nil => intro c; simp [HTTPClient.runOps]
  | cons p rest ih =>
    intro c
    obtain ⟨op, w⟩ := p
    have h1 := http_runOp_state c op w
    simp only [HTTPClient.runOps, h1.1, h1.2, List.map_cons]
    rw [ih ⟨(c.reqID + 1) % 4294967296⟩]
    simp only [List.length_cons, List.range_succ_eq_map, List.map_cons, List.map_map]
    congr 1
    apply List.map_congr_left
    intro a _
    simp only [Function.comp_apply]
    congr 1
    omega

/-- C7 counterexample: the request-id counter is a wrapping signed
32-bit value, so on the 2147483648th request of one client the
attached id drops from 2147483647 to -2147483648: the ids of one
instance are not strictly increasing. -/
theorem request_ids_wrap_at_2_31 :
    ((StdioClient.runOps stdioFresh
        (List.replicate 2147483648 (MCPOp.opListTools, StdioWire.eof))).2.map
          (fun r => r.id)).get? 2147483646 = some (2147483647 : Int) ∧
    ((StdioClient.runOps stdioFresh
        (List.replicate 2147483648 (MCPOp.opListTools, StdioWire.eof))).2.map
          (fun r => r.id)).get? 2147483647 = some (-2147483648 : Int) ∧
    ¬((2147483647 : Int) < -2147483648) := by
  have hids := stdio_runOps_ids
    (List.replicate 2147483648 (MCPOp.opListTools, StdioWire.eof)) stdioFresh rfl
  rw [List.length_replicate] at hids
  rw [hids]
  refine ⟨?_, ?_, by norm_num⟩
  · rw [List.get?_map, List.get?_range (by norm_num)]
    norm_num [toSigned32, stdioFresh]
  · rw [List.get?_map, List.get?_range (by norm_num)]
    norm_num [toSigned32, stdioFresh]

/-- C7 amended: on each of the three transports, the id attached to
the nth request of one client instance is the signed 32-bit value of
n mod 2^32, starting at 1; across any interleaving of operations the
ids are therefore strictly increasing, and never reused, as long as
fewer than 2^31 requests have been issued, and wrap negative at the
2^31st request. -/
theorem request_ids_characterized
    (ops1 : List (MCPOp × StdioWire)) (ops2 : List (MCPOp × WSWire))
    (ops3 : List (MCPOp × HTTPWire)) :
    (StdioClient.runOps stdioFresh ops1).2.map (fun r => r.id)
      = (List.range ops1.length).map (fun i => toSigned32 ((i + 1) % 4294967296)) ∧
    (WebSocketClient.runOps wsFresh ops2).2.map (fun r => r.id)
      = (List.range ops2.length).map (fun i => toSigned32 ((i + 1) % 4294967296)) ∧
    (HTTPClient.runOps httpFresh ops3).2.map (fun r => r.id)
      = (List.range ops3.length).map (fun i => toSigned32 ((i + 1) % 4294967296)) ∧
    (∀ i j : Nat, i < j → j + 1 < 2147483648 →
      toSigned32 ((i + 1) % 4294967296) < toSigned32 ((j + 1) % 4294967296)) := by
  refine ⟨?_, ?_, ?_, ?_⟩
  · have h := stdio_runOps_ids ops1 stdioFresh rfl
    simpa [stdioFresh] using h
  · have h := ws_runOps_ids ops2 wsFresh rfl
    simpa [wsFresh] using h
  · have h := http_runOps_ids ops3 httpFresh
    simpa [httpFresh] using h
  · intro i j hij hj
    have h1 : (i + 1) % 4294967296 = i + 1 := Nat.mod_eq_of_lt (by omega)
    have h2 : (j + 1) % 4294967296 = j + 1 := Nat.mod_eq_of_lt (by omega)
    rw [h1, h2]
    unfold toSigned32
    rw [if_pos (by omega), if_pos hj]
    exact Nat.cast_lt.mpr (by omega)

/-- Witness for the amended C7 theorem: two operations on a fresh
stdio client carry ids 1 then 2, and 1 is below 2. -/
theorem request_ids_characterized_witness :
    (StdioClient.runOps stdioFresh
        [(MCPOp.opListTools, StdioWire.eof), (MCPOp.opListTools, StdioWire.eof)]).2.map
      (fun r => r.id) = [(1 : Int), 2] ∧
    toSigned32 ((0 + 1) % 4294967296) < toSigned32 ((1 + 1) % 4294967296) := by
  have h := request_ids_characterized
    [(MCPOp.opListTools, StdioWire.eof), (MCPOp.opListTools, StdioWire.eof)] [] []
  refine ⟨?_, h.2.2.2 0 1 (by decide) (by decide)⟩
  rw [h.1]
  decide

theorem isEmpty_false_of_ne_nil {α : Type} {l : List α} (h : l ≠ []) : l.isEmpty = false := by
  cases l with
  | nil => exact absurd rfl h
  | cons a l => rfl

theorem processToolUses_fst_isEmpty (env : OrchEnv) (l : List AnthropicContent) :
    (processToolUses env l).1.isEmpty = (l.filter (fun c => c.type == "tool_use")).isEmpty := by
  rw [processToolUses_spec]
  cases l.filter (fun c => c.type == "tool_use") <;> rfl

theorem handleToolUse_rounds (env : OrchEnv) (hkey : env.apiKeyPresent = true) :
    ∀ (rounds : List AnthropicResponse) (r0 final : AnthropicResponse) (t : String),
      toolUseBlocks r0 ≠ [] →
      (∀ q ∈ rounds, q.stopReason = "tool_use" ∧ toolUseBlocks q ≠ []) →
      final.stopReason ≠ "tool_use" → firstText final.content = some t →
      handleAnthropicToolUse env r0 (rounds ++ [final])
        = (.ok t, rounds.length + 1, toolNamesOf (r0 :: rounds)) := by
  intro rounds
  induction rounds with
  | nil =>
    intro r0 final t hb _ hf hft
    have hex : ∃ x ∈ r0.content, x.type = "tool_use" := by
      rcases List.exists_mem_of_ne_nil _ hb with ⟨x, hx⟩
      have hm := List.mem_filter.mp hx
      exact ⟨x, hm.1, by simpa using hm.2⟩
    have hfb : (final.stopReason == "tool_use") = false := by simp [hf]
    simp [handleAnthropicToolUse, hkey, hfb, hft, processToolUses_spec,
      toolNamesOf, toolUseBlocks, hex]
  | cons q rs ih =>
    intro r0 final t hb hrounds hf hft
    have hq := hrounds q (List.mem_cons_self q rs)
    have hex : ∃ x ∈ r0.content, x.type = "tool_use" := by
      rcases List.exists_mem_of_ne_nil _ hb with ⟨x, hx⟩
      have hm := List.mem_filter.mp hx
      exact ⟨x, hm.1, by simpa using hm.2⟩
    have hqb : (q.stopReason == "tool_use") = true := by simp [hq.1]
    have hih := ih q final t hq.2 (fun p hp => hrounds p (List.mem_cons_of_mem q hp)) hf hft
    simp only [List.cons_append]
    simp only [handleAnthropicToolUse]
    rw [hih]
    simp [hkey, hqb, processToolUses_spec, toolNamesOf, toolUseBlocks, hex]

/-- C1 counterexample: a sequence whose single response carries zero
tool_use blocks and a text block, but the tool_use stop reason: the
turn makes exactly one model call yet ends with the
no-tool-use-blocks error instead of returning the response's text, so
the claim does not hold for every zero-tool-block sequence. -/
theorem orchestrator_single_call_counterexample :
    toolUseBlocks c1Resp = [] ∧
    firstText c1Resp.content = some "only text" ∧
    callAnthropic demoEnv [c1Resp] = (.error ChatError.noToolUseBlocks, 1, []) ∧
    (callAnthropic demoEnv [c1Resp]).1 ≠ .ok "only text" := by decide

/-- C1 amended: with the Anthropic key set, a model response with
zero tool_use blocks always ends the turn after exactly one model
call and zero tool invocations: with the response's text when the
stop reason is not tool_use and a text block is present, with the
no-tool-use-blocks error when the stop reason is tool_use, and with
the empty-response error when no text block exists. A script of k
rounds, each with stop reason tool_use and exactly one tool_use
block, followed by a terminal text response, makes the orchestrator
issue exactly k+1 model calls and k tool invocations, in round
order. -/
theorem orchestrator_call_counts
    (env : OrchEnv) (hkey : env.apiKeyPresent = true)
    (r : AnthropicResponse) (t : String)
    (hnb : toolUseBlocks r = [])
    (rounds : List AnthropicResponse) (final : AnthropicResponse) (u : String)
    (hrounds : ∀ q ∈ rounds, q.stopReason = "tool_use" ∧ (toolUseBlocks q).length = 1)
    (hfin : final.stopReason ≠ "tool_use") (hftxt : firstText final.content = some u) :
    (r.stopReason ≠ "tool_use" → firstText r.content = some t →
       callAnthropic env [r] = (.ok t, 1, [])) ∧
    (r.stopReason = "tool_use" →
       callAnthropic env [r] = (.error .noToolUseBlocks, 1, [])) ∧
    (r.stopReason ≠ "tool_use" → firstText r.content = none →
       callAnthropic env [r] = (.error .emptyResponse, 1, [])) ∧
    callAnthropic env (rounds ++ [final]) = (.ok u, rounds.length + 1, toolNamesOf rounds) := by
  refine ⟨?_, ?_, ?_, ?_⟩
  · intro hstop htxt
    have hsb : (r.stopReason == "tool_use") = false := by simp [hstop]
    simp [callAnthropic, hkey, hsb, htxt]
  · intro hstop
    have hsb : (r.stopReason == "tool_use") = true := by simp [hstop]
    have hfb : r.content.filter (fun c => c.type == "tool_use") = [] := hnb
    simp [callAnthropic, handleAnthropicToolUse, hkey, hsb, processToolUses_spec, hfb]
  · intro hstop htxt
    have hsb : (r.stopReason == "tool_use") = false := by simp [hstop]
    simp [callAnthropic, hkey, hsb, htxt]
  · cases rounds with
    | nil =>
      have hsb : (final.stopReason == "tool_use") = false := by simp [hfin]
      simp [callAnthropic, hkey, hsb, hftxt, toolNamesOf]
    | cons r0 rs =>
      have h0 := hrounds r0 (List.mem_cons_self r0 rs)
      have h0b : toolUseBlocks r0 ≠ [] := by
        intro hnil
        rw [hnil] at h0
        simp at h0
      have hrs : ∀ q ∈ rs, q.stopReason = "tool_use" ∧ toolUseBlocks q ≠ [] := by
        intro p hp
        have hpm := hrounds p (List.mem_cons_of_mem r0 hp)
        refine ⟨hpm.1, ?_⟩
        intro hnil
        rw [hnil] at hpm
        simp at hpm
      have hh := handleToolUse_rounds env hkey rs r0 final u h0b hrs hfin hftxt
      have h0s : (r0.stopReason == "tool_use") = true := by simp [h0.1]
      simp only [List.cons_append, callAnthropic, hkey, h0s, Bool.not_true, if_true]
      rw [hh]
      simp [toolNamesOf]

/-- Witness for the amended C1 theorem: a zero-tool-block response
with the tool_use stop reason errors after one model call, and a
concrete one-round script takes two model calls and one tool
invocation. -/
theorem orchestrator_call_counts_witness :
    callAnthropic demoEnv [c1Resp] = (.error ChatError.noToolUseBlocks, 1, []) ∧
    callAnthropic demoEnv [demoRound, demoFinal] = (.ok "done", 2, ["search"]) := by
  have h := orchestrator_call_counts demoEnv rfl c1Resp "only text" (by decide)
      [demoRound] demoFinal "done" (by decide) (by decide) (by decide)
  refine ⟨h.2.1 rfl, ?_⟩
  have h2 := h.2.2.2
  rw [show ([demoRound] ++ [demoFinal]) = [demoRound, demoFinal] from rfl] at h2
  rw [h2]
  decide

/-- C4 counterexample: a response whose stop reason is tool_use but
whose content holds zero tool_use blocks makes the turn fail rather
than return its text; and a terminal response without a text block
makes the turn fail with the empty-response error rather than return
text. -/
theorem orchestrator_text_edge_cases :
    toolUseBlocks c4Resp = [] ∧ firstText c4Resp.content = some "hello" ∧
    (callAnthropic demoEnv [c4Resp]).1 = .error ChatError.noToolUseBlocks ∧
    (callAnthropic demoEnv [c4Resp]).1 ≠ .ok "hello" ∧
    firstText c4NoText.content = none ∧ c4NoText.stopReason ≠ "tool_use" ∧
    (callAnthropic demoEnv [c4NoText]).1 = .error ChatError.emptyResponse := by decide

/-- C4 amended: with the key set, a response whose stop reason is not
tool_use and that carries a text block ends the turn with that text
after one model call and no error; but a tool_use stop reason with
zero tool_use blocks fails the turn with the no-tool-use-blocks
error, and a missing text block fails it with the empty-response
error. -/
theorem orchestrator_terminal_text_amended
    (env : OrchEnv) (hkey : env.apiKeyPresent = true) (r : AnthropicResponse) :
    (∀ t, r.stopReason ≠ "tool_use" → firstText r.content = some t →
       callAnthropic env [r] = (.ok t, 1, [])) ∧
    (r.stopReason = "tool_use" → toolUseBlocks r = [] →
       callAnthropic env [r] = (.error .noToolUseBlocks, 1, [])) ∧
    (r.stopReason ≠ "tool_use" → firstText r.content = none →
       callAnthropic env [r] = (.error .emptyResponse, 1, [])) := by
  refine ⟨?_, ?_, ?_⟩
  · intro t hs ht
    have hsb : (r.stopReason == "tool_use") = false := by simp [hs]
    simp [callAnthropic, hkey, hsb, ht]
  · intro hs hb
    have hsb : (r.stopReason == "tool_use") = true := by simp [hs]
    have hfb : r.content.filter (fun c => c.type == "tool_use") = [] := hb
    simp [callAnthropic, handleAnthropicToolUse, hkey, hsb, processToolUses_spec, hfb]
  · intro hs ht
    have hsb : (r.stopReason == "tool_use") = false := by simp [hs]
    simp [callAnthropic, hkey, hsb, ht]

/-- Witness for the amended C4 theorem at a concrete response. -/
theorem orchestrator_terminal_text_amended_witness :
    callAnthropic demoEnv [c4Resp] = (.error .noToolUseBlocks, 1, []) :=
  (orchestrator_terminal_text_amended demoEnv rfl c4Resp).2.1 rfl (by decide)

theorem synthesizedResult_of_lookupFails (env : OrchEnv) (b : AnthropicContent)
    (h : lookupFailsB env b.name = true) :
    synthesizedResult env b = mkToolResult b.id ("Error: " ++ lookupErrMsg env b.name) true := by
  unfold synthesizedResult invokeMCPTool lookupErrMsg
  unfold lookupFailsB at h
  cases htl : toolLookup env b.name with
  | none => simp [htl]
  | some tool =>
    rw [htl] at h
    have hre : registryGet env tool.ServerName = none := by
      simpa using h
    simp [htl, hre]

/-- C2: when every tool_use block of a round names a tool absent from
the catalog, or whose owning server is absent from the registry, the
orchestrator synthesizes for each block a tool_result carrying the
error description with isError true, resubmits, and the turn ends
with the following terminal text rather than propagating the lookup
failure. -/
theorem unknown_tool_synthesizes_error_result
    (env : OrchEnv) (hkey : env.apiKeyPresent = true)
    (r final : AnthropicResponse) (t : String)
    (hstop : r.stopReason = "tool_use") (hblocks : toolUseBlocks r ≠ [])
    (hmiss : ∀ b ∈ toolUseBlocks r, lookupFailsB env b.name = true)
    (hfin : final.stopReason ≠ "tool_use") (hftxt : firstText final.content = some t) :
    (processToolUses env r.content).1
      = (toolUseBlocks r).map
          (fun b => mkToolResult b.id ("Error: " ++ lookupErrMsg env b.name) true) ∧
    callAnthropic env [r, final] = (.ok t, 2, (toolUseBlocks r).map (fun b => b.name)) := by
  constructor
  · rw [processToolUses_spec]
    apply List.map_congr_left
    intro b hb
    exact synthesizedResult_of_lookupFails env b (hmiss b hb)
  · have hh := handleToolUse_rounds env hkey [] r final t hblocks
      (fun q hq => absurd hq (List.not_mem_nil q)) hfin hftxt
    rw [List.nil_append] at hh
    have hsb : (r.stopReason == "tool_use") = true := by simp [hstop]
    simp only [callAnthropic, hkey, hsb, Bool.not_true, if_true]
    rw [hh]
    simp [toolNamesOf]

/-- Witness for C2: a catalogued tool whose owning server is missing
from the registry. -/
theorem unknown_tool_synthesizes_error_result_witness :
    (processToolUses envMissingServer demoRoundAlpha.content).1
      = [mkToolResult "toolu_02" "Error: server s1 not found for tool alpha" true] ∧
    callAnthropic envMissingServer [demoRoundAlpha, demoFinal2]
      = (.ok "after tools", 2, ["alpha"]) := by
  have h := unknown_tool_synthesizes_error_result envMissingServer rfl demoRoundAlpha demoFinal2
    "after tools" rfl (by decide) (by decide) (by decide) (by decide)
  refine ⟨?_, ?_⟩
  · rw [h.1]
    decide
  · rw [h.2]
    decide

theorem handle_model_calls_replicate (env : OrchEnv) (hkey : env.apiKeyPresent = true)
    (r : AnthropicResponse) (hstop : (r.stopReason == "tool_use") = true)
    (hex : ∃ x ∈ r.content, x.type = "tool_use") :
    ∀ k, (handleAnthropicToolUse env r (List.replicate k r)).2.1 = k + 1 := by
  have hcond : ¬ (∀ a ∈ r.content, ¬a.type = "tool_use") := by
    rcases hex with ⟨x, hx, ht⟩
    exact fun hall => hall x hx ht
  intro k
  induction k with
  | zero =>
    simp [List.replicate, handleAnthropicToolUse, hkey, processToolUses_spec, hcond]
  | succ n ih =>
    simp only [List.replicate]
    simp [handleAnthropicToolUse, hkey, hstop, processToolUses_spec, hcond, ih]

theorem handle_never_recursion_limit (env : OrchEnv) :
    ∀ (rest : List AnthropicResponse) (resp : AnthropicResponse),
      (handleAnthropicToolUse env resp rest).1 ≠ .error ChatError.recursionLimitExceeded := by
  intro rest
  induction rest with
  | nil =>
    intro resp
    simp only [handleAnthropicToolUse]
    by_cases h1 : (processToolUses env resp.content).1.isEmpty <;>
      by_cases h2 : env.apiKeyPresent <;> simp [h1, h2]
  | cons followUp rest2 ih =>
    intro resp
    simp only [handleAnthropicToolUse]
    by_cases h1 : (processToolUses env resp.content).1.isEmpty
    · simp [h1]
    · by_cases h2 : env.apiKeyPresent
      · by_cases h3 : followUp.stopReason == "tool_use"
        · simp only [h1, h2, h3, Bool.not_true, if_true, if_false, Bool.false_eq_true]
          simpa using ih followUp
        · cases hft : firstText followUp.content <;> simp [h1, h2, h3, hft]
      · simp [h1, h2]

/-- C3: the tool-use loop has no iteration guard: for every bound n
there is a script of responses, all with stop reason tool_use and a
tool_use block, that makes the orchestrator attempt more than n model
calls; and no run of the orchestrator ever fails with a
recursion-limit-exceeded error. -/
theorem toolUse_loop_unbounded :
    (∀ n : Nat, ∃ responses : List AnthropicResponse,
       (∀ q ∈ responses, q.stopReason = "tool_use" ∧ toolUseBlocks q ≠ []) ∧
       n < (callAnthropic demoEnv responses).2.1) ∧
    (∀ (env : OrchEnv) (responses : List AnthropicResponse),
       (callAnthropic env responses).1 ≠ .error ChatError.recursionLimitExceeded) := by
  constructor
  · intro n
    refine ⟨List.replicate (n + 1) demoRound, ?_, ?_⟩
    · intro q hq
      rw [List.eq_of_mem_replicate hq]
      exact ⟨rfl, by decide⟩
    · have hex : ∃ x ∈ demoRound.content, x.type = "tool_use" :=
        ⟨toolUseContent "toolu_01" "search" "query", by decide, rfl⟩
      have hcount := handle_model_calls_replicate demoEnv rfl demoRound rfl hex n
      have h1 : demoEnv.apiKeyPresent = true := rfl
      have h2 : demoRound.stopReason = "tool_use" := rfl
      rw [List.replicate_succ]
      simp [callAnthropic, h1, h2, hcount]
      omega
  · intro env responses
    by_cases hk : env.apiKeyPresent
    · cases responses with
      | nil => simp [callAnthropic, hk]
      | cons r rest =>
        by_cases hs : r.stopReason == "tool_use"
        · simp only [callAnthropic, hk, hs, Bool.not_true, if_true, if_false, Bool.false_eq_true]
          simpa using handle_never_recursion_limit env rest r
        · cases hft : firstText r.content <;> simp [callAnthropic, hk, hs, hft]
    · simp [callAnthropic, hk]
